import Mathlib

/-!
# Credential prompts of `common/gmountsource.c`

A shallow embedding of the password-prompt bridge of gvfs: the source
identity, the asynchronous request (`g_mount_source_ask_password_async`,
`ask_password_reply`, `g_mount_source_ask_password_finish`), the blocking
wrapper (`g_mount_source_ask_password`) and the mount-operation adapter
(`op_ask_password_reply`).

Conventions of the embedding.

* A `char *` that may be `NULL` is an `Option String`; a D-Bus string
  argument is never `NULL` and is a `String`.
* `guint32` and `GPasswordSave` values are naturals reduced `% 2 ^ 32`.
* Heap objects mutated in place (`GSimpleAsyncResult`, `GMountOperation`)
  are passed and returned explicitly.
* A function that reads through `NULL`, or that waits for a completion that
  never comes, returns `none`.
* A local that C leaves uninitialised gets its starting content from an
  explicit argument, so that every theorem holds for any such content.
* GLib, GIO and libdbus are outside the file under study; they are modelled
  by their contracts, argument checks included, each next to the place it is
  used.
-/

namespace Gvfs

/-! ## Source identity -/

/-- The `struct _GMountSource` of the source: the bus name and the object path
of the peer that answers prompts.  Both strings are copies made at
construction and are never changed afterwards. -/
structure GMountSource where
  dbus_id : String
  obj_path : String
deriving DecidableEq, Repr

/-- Constructor `g_mount_source_new`. -/
def g_mount_source_new (dbus_id obj_path : String) : GMountSource :=
  { dbus_id := dbus_id, obj_path := obj_path }

/-- Constructor `g_mount_source_new_dummy`: empty bus name, root path. -/
def g_mount_source_new_dummy : GMountSource :=
  { dbus_id := "", obj_path := "/" }

/-- Accessor `g_mount_source_get_dbus_id`. -/
def g_mount_source_get_dbus_id (mount_source : GMountSource) : String :=
  mount_source.dbus_id

/-- Accessor `g_mount_source_get_obj_path`. -/
def g_mount_source_get_obj_path (mount_source : GMountSource) : String :=
  mount_source.obj_path

/-! ## D-Bus values and messages -/

/-- The D-Bus type codes that occur in this file. -/
inductive DBusType where
  | DBUS_TYPE_BOOLEAN
  | DBUS_TYPE_STRING
  | DBUS_TYPE_UINT32
  | DBUS_TYPE_INT32
  | DBUS_TYPE_OBJECT_PATH
deriving DecidableEq, Repr

/-- One argument of a D-Bus message body. -/
inductive DBusArg where
  | boolean (b : Bool)
  | string (s : String)
  | uint32 (n : Nat)
  | int32 (i : Int)
  | object_path (s : String)
deriving DecidableEq, Repr

/-- The type code of an argument, as `dbus_message_iter_get_arg_type` gives it. -/
def DBusArg.arg_type : DBusArg → DBusType
  | .boolean _ => .DBUS_TYPE_BOOLEAN
  | .string _ => .DBUS_TYPE_STRING
  | .uint32 _ => .DBUS_TYPE_UINT32
  | .int32 _ => .DBUS_TYPE_INT32
  | .object_path _ => .DBUS_TYPE_OBJECT_PATH

/-- The body of a `DBusMessage`: its arguments in order. -/
structure DBusMessage where
  args : List DBusArg
deriving DecidableEq, Repr

/-- Modelled from the spec: `_g_dbus_message_iter_get_args` of
`common/gdbusutils.c`, which the reply handler calls and which is not part of
the file under study.  The spec says the reply is decoded positionally.  The
helper walks the expected type codes in order; an argument whose type code
matches is stored into the caller variable of that position and the walk moves
on; the first missing or mismatching argument ends the walk with `FALSE`,
leaving the later variables as they were.  Arguments after the last expected
one are not looked at.  The result is the return value together with the values
stored so far, in order. -/
def _g_dbus_message_iter_get_args : List DBusArg → List DBusType → Bool × List DBusArg
  | _, [] => (true, [])
  | [], _ :: _ => (false, [])
  | a :: rest, t :: ts =>
    if a.arg_type = t then
      let r := _g_dbus_message_iter_get_args rest ts
      (r.1, a :: r.2)
    else (false, [])

/-- The seven type codes that `ask_password_reply` passes to the decoder. -/
def ask_password_reply_types : List DBusType :=
  [.DBUS_TYPE_BOOLEAN, .DBUS_TYPE_BOOLEAN, .DBUS_TYPE_STRING, .DBUS_TYPE_STRING,
   .DBUS_TYPE_STRING, .DBUS_TYPE_BOOLEAN, .DBUS_TYPE_UINT32]

/-- A reply of the expected shape
`(handled, aborted, password, username, domain, anonymous, password_save)`. -/
def mk_reply (handled aborted : Bool) (password username domain : String)
    (anonymous : Bool) (password_save : Nat) : DBusMessage :=
  { args := [.boolean handled, .boolean aborted, .string password, .string username,
             .string domain, .boolean anonymous, .uint32 password_save] }

/-! ## The asynchronous result object -/

/-- The error codes of the `G_IO_ERROR` domain that matter here. -/
inductive GIOErrorEnum where
  | G_IO_ERROR_FAILED
  | G_IO_ERROR_NOT_FOUND
  | G_IO_ERROR_CANCELLED
deriving DecidableEq, Repr

/-- The error domains that matter here. -/
inductive GQuark where
  | G_IO_ERROR
  | G_FILE_ERROR
deriving DecidableEq, Repr

/-- A `GError`: domain, code and the formatted message. -/
structure GError where
  domain : GQuark
  code : GIOErrorEnum
  message : String
deriving DecidableEq, Repr

/-- The `struct AskPasswordData` of the source. -/
structure AskPasswordData where
  aborted : Bool
  password : Option String
  username : Option String
  domain : Option String
  password_save : Nat
deriving DecidableEq, Repr

/-- The continuations that this file hands to the asynchronous call: its own
two, and any continuation of a caller, told apart by a number. -/
inductive GAsyncReadyCallback where
  | ask_password_reply_sync
  | op_ask_password_reply
  | caller (id : Nat)
deriving DecidableEq, Repr

/-- The fields of a `GSimpleAsyncResult` that this file reads or writes. -/
structure GSimpleAsyncResult where
  source_object : GMountSource
  callback : GAsyncReadyCallback
  user_data : Nat
  failed : Bool
  error : Option GError
  op_res : Option AskPasswordData
deriving DecidableEq, Repr

/-- GIO contract of `g_simple_async_result_new`: no error, no result. -/
def g_simple_async_result_new (source_object : GMountSource)
    (callback : GAsyncReadyCallback) (user_data : Nat) : GSimpleAsyncResult :=
  { source_object := source_object, callback := callback, user_data := user_data,
    failed := false, error := none, op_res := none }

/-- GIO contract of `g_simple_async_result_set_op_res_gpointer`. -/
def g_simple_async_result_set_op_res_gpointer (simple : GSimpleAsyncResult)
    (op_res : AskPasswordData) : GSimpleAsyncResult :=
  { simple with op_res := some op_res }

/-- GIO contract of `g_simple_async_result_set_error`.  The function begins
with the argument check `g_return_if_fail (format != NULL)`: called with a
`NULL` format it returns at once and leaves the result as it is.  With a format
it stores the error and marks the result as failed. -/
def g_simple_async_result_set_error (simple : GSimpleAsyncResult)
    (domain : GQuark) (code : GIOErrorEnum) (format : Option String) :
    GSimpleAsyncResult :=
  match format with
  | none => simple
  | some text =>
    { simple with failed := true,
                  error := some { domain := domain, code := code, message := text } }

/-- GIO contract of `g_simple_async_result_propagate_error (simple, NULL)`: when
the result is marked failed the error is handed over (here: dropped, the
destination being `NULL`) and `TRUE` is returned; otherwise `FALSE`. -/
def g_simple_async_result_propagate_error (simple : GSimpleAsyncResult) :
    Bool × GSimpleAsyncResult :=
  if simple.failed then (true, { simple with error := none }) else (false, simple)

/-! ## The main loop and the transport, as far as this file drives them -/

/-- The interface and member names of `gvfsdaemonprotocol.h`, kept symbolic. -/
inductive ProtocolName where
  | G_VFS_DBUS_MOUNT_OPERATION_INTERFACE
  | G_VFS_DBUS_MOUNT_OPERATION_OP_ASK_PASSWORD
deriving DecidableEq, Repr

/-- One call handed to `_g_dbus_connection_call_async`. -/
structure DBusCall where
  destination : String
  path : String
  iface : ProtocolName
  member : ProtocolName
  args : List DBusArg
  timeout_msecs : Nat
  data : GSimpleAsyncResult
deriving DecidableEq, Repr

/-- What the surrounding process holds for this file: the method calls handed
to the transport and not yet answered, the completions queued for an idle
handler, and the record of continuations run so far, each with the result
object it was run with. -/
structure MainLoop where
  dbus_calls : List DBusCall
  idle : List GSimpleAsyncResult
  invoked : List GSimpleAsyncResult
deriving DecidableEq, Repr

/-- A main loop with nothing pending and nothing run. -/
def MainLoop.empty : MainLoop :=
  { dbus_calls := [], idle := [], invoked := [] }

/-- GIO contract of `g_simple_async_result_complete`: runs the continuation
stored in the result, with the result. -/
def g_simple_async_result_complete (simple : GSimpleAsyncResult) (loop : MainLoop) :
    MainLoop :=
  { loop with invoked := loop.invoked ++ [simple] }

/-- GIO contract of `g_simple_async_report_error_in_idle`.  The function
begins with the argument check `g_return_if_fail (format != NULL)`: called with
a `NULL` format it returns at once, builds no result and queues nothing.  With
a format it builds a result carrying the error and queues its completion for
an idle handler. -/
def g_simple_async_report_error_in_idle (object : GMountSource)
    (callback : GAsyncReadyCallback) (user_data : Nat) (domain : GQuark)
    (code : GIOErrorEnum) (format : Option String) (loop : MainLoop) : MainLoop :=
  match format with
  | none => loop
  | some text =>
    let simple := g_simple_async_result_set_error
      (g_simple_async_result_new object callback user_data) domain code (some text)
    { loop with idle := loop.idle ++ [simple] }

/-! ## The asynchronous request -/

/-- The zeroed block that `g_new0 (AskPasswordData, 1)` returns. -/
def AskPasswordData.zero : AskPasswordData :=
  { aborted := false, password := none, username := none, domain := none,
    password_save := 0 }

/-- The source function `ask_password_reply`, up to and including the
completion of the result.  `reply = none` is the `NULL` reply; the `error`
argument of the source is never read and is left out.  The local
`handled` starts as `TRUE` and is overwritten only if the decoder stored the
first argument.  The error of the `handled == FALSE` test is set with the `NULL`
format that the source passes.  The other six locals are read only after the decoder has
succeeded, when all seven hold a value of their type; the last arm of the inner
match is therefore never taken.  Returns the result object and the main loop. -/
def ask_password_reply (reply : Option DBusMessage) (result : GSimpleAsyncResult)
    (loop : MainLoop) : GSimpleAsyncResult × MainLoop :=
  let data := AskPasswordData.zero
  let decoded : Bool × AskPasswordData :=
    match reply with
    | none => (true, { data with aborted := true })
    | some msg =>
      let r := _g_dbus_message_iter_get_args msg.args ask_password_reply_types
      let handled :=
        match r.2 with
        | .boolean b :: _ => b
        | _ => true
      if !r.1 then (handled, { data with aborted := true })
      else
        match r.2 with
        | [_, .boolean aborted, .string password, .string username, .string domain,
           _, .uint32 password_save] =>
          (handled, { data with aborted := aborted,
                                password := some password,
                                username := some username,
                                domain := some domain,
                                password_save := password_save % 2 ^ 32 })
        | _ => (handled, data)
  let result := g_simple_async_result_set_op_res_gpointer result decoded.2
  let result :=
    if decoded.1 == false then
      g_simple_async_result_set_error result .G_IO_ERROR .G_IO_ERROR_FAILED none
    else result
  (result, g_simple_async_result_complete result loop)

/-- A `const char *` argument replaced by `""` when it is `NULL`. -/
def null_to_empty (s : Option String) : String :=
  match s with
  | some v => v
  | none => ""

/-- The source function `g_mount_source_ask_password_async`.  The error of
the empty bus name is reported with the `NULL` format that the source passes. -/
def g_mount_source_ask_password_async (source : GMountSource)
    (message_string default_user default_domain : Option String) (flags : Nat)
    (callback : GAsyncReadyCallback) (user_data : Nat) (loop : MainLoop) : MainLoop :=
  if source.dbus_id.data.head? = none then
    g_simple_async_report_error_in_idle source callback user_data
      .G_IO_ERROR .G_IO_ERROR_FAILED none loop
  else
    let message_string := null_to_empty message_string
    let default_user := null_to_empty default_user
    let default_domain := null_to_empty default_domain
    let flags_as_int := flags % 2 ^ 32
    let result := g_simple_async_result_new source callback user_data
    { loop with
      dbus_calls := loop.dbus_calls ++
        [{ destination := source.dbus_id,
           path := source.obj_path,
           iface := .G_VFS_DBUS_MOUNT_OPERATION_INTERFACE,
           member := .G_VFS_DBUS_MOUNT_OPERATION_OP_ASK_PASSWORD,
           args := [.string message_string, .string default_user,
                    .string default_domain, .uint32 flags_as_int],
           timeout_msecs := 1000 * 60 * 30,
           data := result }] }

/-- Which of the five out-pointers of a call are not `NULL`. -/
structure OutPtrs where
  aborted : Bool
  password_out : Bool
  user_out : Bool
  domain_out : Bool
  password_save_out : Bool
deriving DecidableEq, Repr

/-- All five out-pointers given. -/
def OutPtrs.all : OutPtrs :=
  { aborted := true, password_out := true, user_out := true, domain_out := true,
    password_save_out := true }

/-- The content of the five variables the out-pointers may point to, named
after the parameters of `g_mount_source_ask_password_finish`. -/
structure OutVars where
  aborted : Bool
  password_out : Option String
  user_out : Option String
  domain_out : Option String
  password_save_out : Nat
deriving DecidableEq, Repr

/-- What a call of `g_mount_source_ask_password_finish` leaves behind: its
return value, the out-variables and the result object. -/
structure FinishReturn where
  ret : Bool
  outs : OutVars
  result : GSimpleAsyncResult
deriving DecidableEq, Repr

/-- The source function `g_mount_source_ask_password_finish`; its `source`
argument is never read and is left out.  `ptrs` says which out-pointers are
given and `outs` is the content of the out-variables before the call.  With no result block stored and
an out-pointer given, the function reads through `NULL`: `none`. -/
def g_mount_source_ask_password_finish (result : GSimpleAsyncResult) (ptrs : OutPtrs)
    (outs : OutVars) : Option FinishReturn :=
  let pe := g_simple_async_result_propagate_error result
  if pe.1 then some { ret := false, outs := outs, result := pe.2 }
  else
    let simple := pe.2
    match simple.op_res with
    | none =>
      if ptrs.aborted || ptrs.password_out || ptrs.user_out || ptrs.domain_out
          || ptrs.password_save_out then none
      else some { ret := true, outs := outs, result := simple }
    | some data =>
      let outs := if ptrs.aborted then { outs with aborted := data.aborted } else outs
      let outs := if ptrs.password_out then { outs with password_out := data.password }
                  else outs
      let data := if ptrs.password_out then { data with password := none } else data
      let outs := if ptrs.user_out then { outs with user_out := data.username } else outs
      let data := if ptrs.user_out then { data with username := none } else data
      let outs := if ptrs.domain_out then { outs with domain_out := data.domain } else outs
      let data := if ptrs.domain_out then { data with domain := none } else data
      let outs := if ptrs.password_save_out
                  then { outs with password_save_out := data.password_save } else outs
      some { ret := true, outs := outs, result := { simple with op_res := some data } }

/-! ## A scripted transport and main loop

The transport and the main loop are collaborators of the file under study.
To drive the request end to end they are scripted: idle handlers run the queued
completions in order, and the transport answers the oldest pending call with a
given reply (`none`: no reply at all) by calling `ask_password_reply`. -/

/-- The idle handlers run: every queued completion is completed, in order. -/
def main_loop_run_idle (loop : MainLoop) : MainLoop :=
  loop.idle.foldl (fun l r => g_simple_async_result_complete r l)
    { loop with idle := [] }

/-- The transport finishes the oldest pending call with `reply`. -/
def transport_deliver (reply : Option DBusMessage) (loop : MainLoop) : MainLoop :=
  match loop.dbus_calls with
  | [] => loop
  | c :: rest => (ask_password_reply reply c.data { loop with dbus_calls := rest }).2

/-- One turn of the scripted main loop: idle handlers, then the transport. -/
def main_loop_iterate (reply : Option DBusMessage) (loop : MainLoop) : MainLoop :=
  transport_deliver reply (main_loop_run_idle loop)

/-! ## The blocking wrapper -/

/-- The `struct AskPasswordSyncData` of the source, without its mutex and
condition variable. -/
structure AskPasswordSyncData where
  result : Option GSimpleAsyncResult
deriving DecidableEq, Repr

/-- The source function `ask_password_reply_sync`: stores the result object for
the waiting thread. -/
def ask_password_reply_sync (res : GSimpleAsyncResult) (data : AskPasswordSyncData) :
    AskPasswordSyncData :=
  { data with result := some res }

/-- The reply codes of a mount operation. -/
inductive GMountOperationResult where
  | G_MOUNT_OPERATION_HANDLED
  | G_MOUNT_OPERATION_ABORTED
  | G_MOUNT_OPERATION_UNHANDLED
deriving DecidableEq, Repr

/-- The calls of the `GMountOperation` interface that this file makes. -/
inductive OpCall where
  | set_password (password : Option String)
  | set_username (username : Option String)
  | set_domain (domain : Option String)
  | set_password_save (save : Nat)
  | reply (result : GMountOperationResult)
deriving DecidableEq, Repr

/-- A `GMountOperation`: the four credential fields its setters write, and the
record of the calls it has received, oldest first. -/
structure GMountOperation where
  password : Option String
  user : Option String
  domain : Option String
  password_save : Nat
  calls : List OpCall
deriving DecidableEq, Repr

/-- GIO contract of `g_mount_operation_set_password`. -/
def g_mount_operation_set_password (op : GMountOperation) (password : Option String) :
    GMountOperation :=
  { op with password := password, calls := op.calls ++ [.set_password password] }

/-- GIO contract of `g_mount_operation_set_username`. -/
def g_mount_operation_set_username (op : GMountOperation) (username : Option String) :
    GMountOperation :=
  { op with user := username, calls := op.calls ++ [.set_username username] }

/-- GIO contract of `g_mount_operation_set_domain`. -/
def g_mount_operation_set_domain (op : GMountOperation) (domain : Option String) :
    GMountOperation :=
  { op with domain := domain, calls := op.calls ++ [.set_domain domain] }

/-- GIO contract of `g_mount_operation_set_password_save`. -/
def g_mount_operation_set_password_save (op : GMountOperation) (save : Nat) :
    GMountOperation :=
  { op with password_save := save, calls := op.calls ++ [.set_password_save save] }

/-- GIO contract of `g_mount_operation_reply`: emits the reply signal. -/
def g_mount_operation_reply (op : GMountOperation) (result : GMountOperationResult) :
    GMountOperation :=
  { op with calls := op.calls ++ [.reply result] }

/-- The source function `op_ask_password_reply`.  `stack` gives the entry
content of the uninitialised locals `aborted` and `password_save`; the locals
`username`, `password` and `domain` start as `NULL`.  The call of
`g_mount_source_ask_password_finish` passes `&username` in the position of
`password_out` and `&password` in the position of `user_out`, as the source
does.  Returns the result object and the operation. -/
def op_ask_password_reply (res : GSimpleAsyncResult) (op : GMountOperation)
    (stack : OutVars) : Option (GSimpleAsyncResult × GMountOperation) :=
  let username : Option String := none
  let password : Option String := none
  let domain : Option String := none
  match g_mount_source_ask_password_finish res OutPtrs.all
      { aborted := stack.aborted,
        password_out := username,
        user_out := password,
        domain_out := domain,
        password_save_out := stack.password_save_out } with
  | none => none
  | some r =>
    let handled := r.ret
    let aborted := r.outs.aborted
    let username := r.outs.password_out
    let password := r.outs.user_out
    let domain := r.outs.domain_out
    let password_save := r.outs.password_save_out
    if !handled then
      some (r.result, g_mount_operation_reply op .G_MOUNT_OPERATION_UNHANDLED)
    else if aborted then
      some (r.result, g_mount_operation_reply op .G_MOUNT_OPERATION_ABORTED)
    else
      let op := if password.isSome then g_mount_operation_set_password op password else op
      let op := if username.isSome then g_mount_operation_set_username op username else op
      let op := if domain.isSome then g_mount_operation_set_domain op domain else op
      let op := g_mount_operation_set_password_save op password_save
      some (r.result, g_mount_operation_reply op .G_MOUNT_OPERATION_HANDLED)

/-- The source function `op_ask_password`: issues the request with
`op_ask_password_reply` as continuation and answers `TRUE`. -/
def op_ask_password (message default_user default_domain : Option String)
    (flags : Nat) (mount_source : GMountSource) (op_ref : Nat) (loop : MainLoop) :
    Bool × MainLoop :=
  (true, g_mount_source_ask_password_async mount_source message default_user
    default_domain flags .op_ask_password_reply op_ref loop)

/-- The reply codes among a list of calls, in order. -/
def replies_of (calls : List OpCall) : List GMountOperationResult :=
  calls.filterMap fun c =>
    match c with
    | .reply r => some r
    | _ => none

/-- Whether a call is a string setter whose argument is `NULL`. -/
def OpCall.sets_null : OpCall → Bool
  | .set_password none => true
  | .set_username none => true
  | .set_domain none => true
  | _ => false

/-- Whether a call is one of the three string setters. -/
def OpCall.is_string_setter : OpCall → Bool
  | .set_password _ => true
  | .set_username _ => true
  | .set_domain _ => true
  | _ => false

/-- Whether a call is one of the four setters. -/
def OpCall.is_setter : OpCall → Bool
  | .reply _ => false
  | _ => true

/-- A result object is complete when either an error or a result block has
been stored in it.  `ask_password_reply` leaves the object in this state. -/
def GSimpleAsyncResult.completed (r : GSimpleAsyncResult) : Bool :=
  r.failed || r.op_res.isSome

/-- The reply code that corresponds to an outcome of
`g_mount_source_ask_password_finish`. -/
def reply_code (ret aborted : Bool) : GMountOperationResult :=
  if !ret then .G_MOUNT_OPERATION_UNHANDLED
  else if aborted then .G_MOUNT_OPERATION_ABORTED
  else .G_MOUNT_OPERATION_HANDLED

/-- The scenario reply of the spec:
`(true, false, "secret", "bob", "WORKGROUP", false, 1)`. -/
def scenario_reply : DBusMessage :=
  mk_reply true false "secret" "bob" "WORKGROUP" false 1

/-- The scenario source of the spec. -/
def scenario_source : GMountSource :=
  g_mount_source_new "svc:1" "/op/1"

/-- Out-variables holding nothing. -/
def OutVars.clear : OutVars :=
  { aborted := false, password_out := none, user_out := none, domain_out := none,
    password_save_out := 0 }

/-- A mount operation with no credentials and no calls received. -/
def g_mount_operation_new : GMountOperation :=
  { password := none, user := none, domain := none, password_save := 0, calls := [] }

/-! ## Properties of the asynchronous request -/

/-- When the decoder succeeds, the values it stored have exactly the type codes
asked for, in order; so after a successful call with the seven codes of
`ask_password_reply` all seven variables hold a value of their own type. -/
theorem get_args_stored_types (args : List DBusArg) (types : List DBusType)
    (hok : (_g_dbus_message_iter_get_args args types).1 = true) :
    (_g_dbus_message_iter_get_args args types).2.map DBusArg.arg_type = types := by
  induction types generalizing args with
  | nil => simp [_g_dbus_message_iter_get_args]
  | cons t ts ih =>
    cases args with
    | nil => simp [_g_dbus_message_iter_get_args] at hok
    | cons a rest =>
      by_cases hty : a.arg_type = t
      · simp only [_g_dbus_message_iter_get_args, hty, if_true] at hok ⊢
        simp [ih rest hok, hty]
      · simp [_g_dbus_message_iter_get_args, hty] at hok

/-- C1: a reply of the expected shape with `handled = TRUE` and
`aborted = FALSE`, given to `ask_password_reply` on a fresh result object and
then read with `g_mount_source_ask_password_finish`, makes the latter return
`TRUE` with `aborted = FALSE` and with the password, the user name, the domain
and the save code of the reply in the out-variables. -/
theorem ask_password_finish_returns_reply_fields (source : GMountSource)
    (callback : GAsyncReadyCallback) (user_data : Nat) (loop : MainLoop)
    (password username domain : String) (anonymous : Bool) (save : Nat)
    (hsave : save < 2 ^ 32) (outs : OutVars) :
    ∃ r, g_mount_source_ask_password_finish
          (ask_password_reply
            (some (mk_reply true false password username domain anonymous save))
            (g_simple_async_result_new source callback user_data) loop).1
          OutPtrs.all outs = some r
      ∧ r.ret = true
      ∧ r.outs.aborted = false
      ∧ r.outs.password_out = some password
      ∧ r.outs.user_out = some username
      ∧ r.outs.domain_out = some domain
      ∧ r.outs.password_save_out = save := by
  have hmod : save % 4294967296 = save := Nat.mod_eq_of_lt (by simpa using hsave)
  simp [ask_password_reply, mk_reply, _g_dbus_message_iter_get_args,
    ask_password_reply_types, DBusArg.arg_type, g_mount_source_ask_password_finish,
    g_simple_async_result_new, g_simple_async_result_set_op_res_gpointer,
    g_simple_async_result_propagate_error, AskPasswordData.zero, OutPtrs.all, hmod]

/-- The scenario of the spec for C1: the reply
`(true, false, "secret", "bob", "WORKGROUP", false, 1)` yields exactly these
strings and save code 1. -/
theorem ask_password_finish_returns_reply_fields_witness :
    (1 : Nat) < 2 ^ 32 ∧
    ∃ r, g_mount_source_ask_password_finish
          (ask_password_reply
            (some (mk_reply true false "secret" "bob" "WORKGROUP" false 1))
            (g_simple_async_result_new scenario_source (.caller 0) 0)
            MainLoop.empty).1
          OutPtrs.all OutVars.clear = some r
      ∧ r.ret = true
      ∧ r.outs.aborted = false
      ∧ r.outs.password_out = some "secret"
      ∧ r.outs.user_out = some "bob"
      ∧ r.outs.domain_out = some "WORKGROUP"
      ∧ r.outs.password_save_out = 1 :=
  ⟨by decide,
   ask_password_finish_returns_reply_fields scenario_source (.caller 0) 0
     MainLoop.empty "secret" "bob" "WORKGROUP" false 1 (by decide) OutVars.clear⟩

/-- On a fresh result object `ask_password_reply` never leaves an error,
whatever the reply: the only error it sets is set with a `NULL` format. -/
theorem ask_password_reply_never_failed (reply : Option DBusMessage)
    (source : GMountSource) (callback : GAsyncReadyCallback) (user_data : Nat)
    (loop : MainLoop) :
    (ask_password_reply reply
        (g_simple_async_result_new source callback user_data) loop).1.failed = false
    ∧ (ask_password_reply reply
        (g_simple_async_result_new source callback user_data) loop).1.error = none := by
  unfold ask_password_reply
  simp only [g_simple_async_result_set_op_res_gpointer, g_simple_async_result_set_error,
    g_simple_async_result_new]
  split_ifs <;> simp

/-- What a reply of the expected shape with `handled = FALSE` leaves behind:
no error, and `g_mount_source_ask_password_finish` returns `TRUE` with the
fields of the reply. -/
theorem ask_password_unhandled_reply_fields (source : GMountSource)
    (callback : GAsyncReadyCallback) (user_data : Nat) (loop : MainLoop)
    (aborted : Bool) (password username domain : String) (anonymous : Bool)
    (save : Nat) (outs : OutVars) :
    ∃ r, g_mount_source_ask_password_finish
          (ask_password_reply
            (some (mk_reply false aborted password username domain anonymous save))
            (g_simple_async_result_new source callback user_data) loop).1
          OutPtrs.all outs = some r
      ∧ r.ret = true
      ∧ r.outs.aborted = aborted
      ∧ r.outs.password_out = some password
      ∧ r.outs.user_out = some username
      ∧ r.outs.domain_out = some domain := by
  simp [ask_password_reply, mk_reply, _g_dbus_message_iter_get_args,
    ask_password_reply_types, DBusArg.arg_type, g_mount_source_ask_password_finish,
    g_simple_async_result_new, g_simple_async_result_set_op_res_gpointer,
    g_simple_async_result_set_error, g_simple_async_result_propagate_error,
    AskPasswordData.zero, OutPtrs.all]

/-- C2, the code at the reply
`(false, false, "secret", "bob", "WORKGROUP", false, 1)`: the claim has a
Failed error stored and `g_mount_source_ask_password_finish` returning `FALSE`;
the code stores no error, the error call being made with a `NULL` format, and
`g_mount_source_ask_password_finish` returns `TRUE` and hands out the
password `"secret"`, the user name `"bob"` and the domain `"WORKGROUP"`. -/
theorem ask_password_unhandled_reply_not_failed :
    (ask_password_reply
        (some (mk_reply false false "secret" "bob" "WORKGROUP" false 1))
        (g_simple_async_result_new scenario_source (.caller 0) 0)
        MainLoop.empty).1.failed = false
    ∧ (ask_password_reply
        (some (mk_reply false false "secret" "bob" "WORKGROUP" false 1))
        (g_simple_async_result_new scenario_source (.caller 0) 0)
        MainLoop.empty).1.error = none
    ∧ ∃ r, g_mount_source_ask_password_finish
          (ask_password_reply
            (some (mk_reply false false "secret" "bob" "WORKGROUP" false 1))
            (g_simple_async_result_new scenario_source (.caller 0) 0)
            MainLoop.empty).1 OutPtrs.all OutVars.clear = some r
        ∧ r.ret = true
        ∧ r.outs.aborted = false
        ∧ r.outs.password_out = some "secret"
        ∧ r.outs.user_out = some "bob"
        ∧ r.outs.domain_out = some "WORKGROUP" :=
  ⟨rfl, rfl, _, rfl, rfl, rfl, rfl, rfl, rfl⟩

/-- C3: with no reply at all (`reply == NULL`), `ask_password_reply` stores no
error, and `g_mount_source_ask_password_finish` on the result object returns
`TRUE` with `aborted = TRUE` and with `NULL` for password, user name and
domain. -/
theorem ask_password_no_reply_is_aborted (source : GMountSource)
    (callback : GAsyncReadyCallback) (user_data : Nat) (loop : MainLoop)
    (outs : OutVars) :
    (ask_password_reply none
        (g_simple_async_result_new source callback user_data) loop).1.failed = false
    ∧ (ask_password_reply none
        (g_simple_async_result_new source callback user_data) loop).1.error = none
    ∧ ∃ r, g_mount_source_ask_password_finish
          (ask_password_reply none
            (g_simple_async_result_new source callback user_data) loop).1
          OutPtrs.all outs = some r
        ∧ r.ret = true
        ∧ r.outs.aborted = true
        ∧ r.outs.password_out = none
        ∧ r.outs.user_out = none
        ∧ r.outs.domain_out = none := by
  simp [ask_password_reply, g_mount_source_ask_password_finish,
    g_simple_async_result_new, g_simple_async_result_set_op_res_gpointer,
    g_simple_async_result_propagate_error, AskPasswordData.zero, OutPtrs.all]

/-- The test `dbus_id[0] == 0` of the source holds exactly for the empty
string. -/
theorem dbus_id_first_is_nul (source : GMountSource) :
    source.dbus_id.data.head? = none ↔ source.dbus_id = "" := by
  constructor
  · intro h
    have hdata : source.dbus_id.data = [] := by
      cases hd : source.dbus_id.data with
      | nil => rfl
      | cons c cs => rw [hd] at h; simp at h
    exact String.ext hdata
  · intro h
    rw [h]
    rfl

/-- For a source whose bus name is the empty string
`g_mount_source_ask_password_async` changes nothing: no call goes to the
transport, no continuation is run, and nothing is queued for the idle
handler, the error report being made with a `NULL` format. -/
theorem ask_password_async_empty_dbus_id_does_nothing (source : GMountSource)
    (hid : source.dbus_id = "")
    (message_string default_user default_domain : Option String) (flags : Nat)
    (callback : GAsyncReadyCallback) (user_data : Nat) (loop : MainLoop) :
    g_mount_source_ask_password_async source message_string default_user
      default_domain flags callback user_data loop = loop := by
  unfold g_mount_source_ask_password_async
  rw [if_pos ((dbus_id_first_is_nul source).2 hid)]
  rfl

/-- C4, the code at the dummy source of `g_mount_source_new_dummy`: the claim
has the continuation queued for idle delivery and later run with a Failed
error; the code hands no call to the transport and runs nothing inline, as
claimed, but it queues nothing either, the error report being made with a
`NULL` format, so that after the idle handlers and the transport have had
their turn the continuation still has not run. -/
theorem ask_password_async_dummy_never_completes :
    g_mount_source_new_dummy.dbus_id = ""
    ∧ (g_mount_source_ask_password_async g_mount_source_new_dummy (some "Password?")
        none none 0 (.caller 7) 0 MainLoop.empty).dbus_calls = []
    ∧ (g_mount_source_ask_password_async g_mount_source_new_dummy (some "Password?")
        none none 0 (.caller 7) 0 MainLoop.empty).invoked = []
    ∧ (g_mount_source_ask_password_async g_mount_source_new_dummy (some "Password?")
        none none 0 (.caller 7) 0 MainLoop.empty).idle = []
    ∧ (main_loop_iterate none
        (g_mount_source_ask_password_async g_mount_source_new_dummy (some "Password?")
          none none 0 (.caller 7) 0 MainLoop.empty)).invoked = [] :=
  ⟨rfl, rfl, rfl, rfl, rfl⟩

/-! ## Properties of the mount-operation adapter -/

/-- The result object that `ask_password_reply` leaves is complete. -/
theorem ask_password_reply_completed (reply : Option DBusMessage)
    (result : GSimpleAsyncResult) (loop : MainLoop) :
    (ask_password_reply reply result loop).1.completed = true := by
  unfold ask_password_reply
  simp only [GSimpleAsyncResult.completed, g_simple_async_result_set_op_res_gpointer,
    g_simple_async_result_set_error]
  split_ifs <;> simp

/-- C5: for every complete result object, `op_ask_password_reply` calls
`g_mount_operation_reply` exactly once: with `UNHANDLED` if
`g_mount_source_ask_password_finish` returns `FALSE`, with `ABORTED` if it
returns `TRUE` and `aborted` is `TRUE`, and with `HANDLED` if it returns `TRUE`
and `aborted` is `FALSE`. -/
theorem op_ask_password_reply_replies_once (res : GSimpleAsyncResult)
    (op : GMountOperation) (stack outs : OutVars) (hres : res.completed = true) :
    ∃ r res' op' new code,
      g_mount_source_ask_password_finish res OutPtrs.all outs = some r
      ∧ op_ask_password_reply res op stack = some (res', op')
      ∧ op'.calls = op.calls ++ new
      ∧ replies_of new = [code]
      ∧ (r.ret = false → code = .G_MOUNT_OPERATION_UNHANDLED)
      ∧ (r.ret = true → r.outs.aborted = true → code = .G_MOUNT_OPERATION_ABORTED)
      ∧ (r.ret = true → r.outs.aborted = false → code = .G_MOUNT_OPERATION_HANDLED) := by
  obtain ⟨so, cb, ud, failed, err, opres⟩ := res
  cases failed
  · cases opres with
    | none => simp [GSimpleAsyncResult.completed] at hres
    | some data =>
      obtain ⟨ab, pw, un, dom, sv⟩ := data
      cases ab <;> cases pw <;> cases un <;> cases dom <;>
        simp [op_ask_password_reply, g_mount_source_ask_password_finish,
          g_simple_async_result_propagate_error, OutPtrs.all, replies_of,
          g_mount_operation_reply, g_mount_operation_set_password,
          g_mount_operation_set_username, g_mount_operation_set_domain,
          g_mount_operation_set_password_save] <;>
        exact ⟨_, _, ⟨rfl, rfl⟩, _, rfl, rfl⟩
  · simp [op_ask_password_reply, g_mount_source_ask_password_finish,
      g_simple_async_result_propagate_error, replies_of, g_mount_operation_reply]
    exact ⟨_, _, ⟨rfl, rfl⟩, _, rfl, rfl⟩

/-- The scenario of the spec as an instance of C5: one reply, `HANDLED`. -/
theorem op_ask_password_reply_replies_once_witness :
    (ask_password_reply (some scenario_reply)
        (g_simple_async_result_new scenario_source .op_ask_password_reply 0)
        MainLoop.empty).1.completed = true
    ∧ ∃ r res' op' new code,
      g_mount_source_ask_password_finish
          (ask_password_reply (some scenario_reply)
            (g_simple_async_result_new scenario_source .op_ask_password_reply 0)
            MainLoop.empty).1 OutPtrs.all OutVars.clear = some r
      ∧ op_ask_password_reply
          (ask_password_reply (some scenario_reply)
            (g_simple_async_result_new scenario_source .op_ask_password_reply 0)
            MainLoop.empty).1 g_mount_operation_new OutVars.clear = some (res', op')
      ∧ op'.calls = g_mount_operation_new.calls ++ new
      ∧ replies_of new = [code]
      ∧ (r.ret = false → code = .G_MOUNT_OPERATION_UNHANDLED)
      ∧ (r.ret = true → r.outs.aborted = true → code = .G_MOUNT_OPERATION_ABORTED)
      ∧ (r.ret = true → r.outs.aborted = false → code = .G_MOUNT_OPERATION_HANDLED) :=
  ⟨ask_password_reply_completed _ _ _,
   op_ask_password_reply_replies_once _ g_mount_operation_new OutVars.clear
     OutVars.clear (ask_password_reply_completed _ _ _)⟩

/-- What the adapter leaves in the operation for a reply of the expected shape
with `handled = TRUE` and `aborted = FALSE`: the operation's password is the
user name of the reply and the operation's user name is the password of the
reply; domain and save code arrive in their own fields. -/
theorem op_ask_password_reply_fields (source : GMountSource)
    (callback : GAsyncReadyCallback) (user_data : Nat) (loop : MainLoop)
    (password username domain : String) (anonymous : Bool) (save : Nat)
    (op : GMountOperation) (stack : OutVars) :
    ∃ res' op',
      op_ask_password_reply
          (ask_password_reply
            (some (mk_reply true false password username domain anonymous save))
            (g_simple_async_result_new source callback user_data) loop).1
          op stack = some (res', op')
      ∧ op'.password = some username
      ∧ op'.user = some password
      ∧ op'.domain = some domain
      ∧ op'.password_save = save % 2 ^ 32 := by
  simp [op_ask_password_reply, ask_password_reply, mk_reply,
    _g_dbus_message_iter_get_args, ask_password_reply_types, DBusArg.arg_type,
    g_mount_source_ask_password_finish, g_simple_async_result_new,
    g_simple_async_result_set_op_res_gpointer, g_simple_async_result_propagate_error,
    AskPasswordData.zero, OutPtrs.all, g_mount_operation_reply,
    g_mount_operation_set_password, g_mount_operation_set_username,
    g_mount_operation_set_domain, g_mount_operation_set_password_save]
  exact ⟨_, _, ⟨rfl, rfl⟩, rfl, rfl, rfl, rfl⟩

/-- C6, the code at the scenario reply of the spec: after
`op_ask_password_reply` has run on the result of the reply
`(true, false, "secret", "bob", "WORKGROUP", false, 1)`, the operation's
password is `"bob"` and its user name is `"secret"`; the claim asks for
password `"secret"` and user name `"bob"`. -/
theorem op_ask_password_reply_scenario_swapped :
    ∃ res' op',
      op_ask_password_reply
          (ask_password_reply (some scenario_reply)
            (g_simple_async_result_new scenario_source .op_ask_password_reply 0)
            MainLoop.empty).1
          g_mount_operation_new OutVars.clear = some (res', op')
      ∧ op'.password = some "bob"
      ∧ op'.user = some "secret"
      ∧ op'.password ≠ some "secret"
      ∧ op'.user ≠ some "bob"
      ∧ op'.domain = some "WORKGROUP"
      ∧ op'.password_save = 1 := by
  obtain ⟨res', op', hrun, hp, hu, hd, hs⟩ :=
    op_ask_password_reply_fields scenario_source .op_ask_password_reply 0
      MainLoop.empty "secret" "bob" "WORKGROUP" false 1 g_mount_operation_new
      OutVars.clear
  refine ⟨res', op', hrun, hp, hu, ?_, ?_, hd, by simpa using hs⟩
  · rw [hp]; decide
  · rw [hu]; decide

/-- On a complete result object `op_ask_password_reply` returns: the only
`NULL` it could read through is a missing result block. -/
theorem op_ask_password_reply_returns (res : GSimpleAsyncResult)
    (op : GMountOperation) (stack : OutVars) (hres : res.completed = true) :
    ∃ res' op', op_ask_password_reply res op stack = some (res', op') := by
  obtain ⟨so, cb, ud, failed, err, opres⟩ := res
  cases failed
  · cases opres with
    | none => simp [GSimpleAsyncResult.completed] at hres
    | some data =>
      obtain ⟨ab, pw, un, dom, sv⟩ := data
      cases ab <;>
        simp [op_ask_password_reply, g_mount_source_ask_password_finish,
          g_simple_async_result_propagate_error, OutPtrs.all]
  · simp [op_ask_password_reply, g_mount_source_ask_password_finish,
      g_simple_async_result_propagate_error]

/-- The calls that a run of `op_ask_password_reply` makes on the operation,
set against the outcome of `g_mount_source_ask_password_finish`. -/
theorem op_ask_password_reply_calls (res : GSimpleAsyncResult)
    (op : GMountOperation) (stack outs : OutVars) (res' : GSimpleAsyncResult)
    (op' : GMountOperation)
    (hrun : op_ask_password_reply res op stack = some (res', op')) :
    ∃ r new,
      g_mount_source_ask_password_finish res OutPtrs.all outs = some r
      ∧ op'.calls = op.calls ++ new
      ∧ ((r.ret = false ∨ r.outs.aborted = true) →
          (∀ c ∈ new, c.is_setter = false)
          ∧ op'.password = op.password ∧ op'.user = op.user
          ∧ op'.domain = op.domain ∧ op'.password_save = op.password_save)
      ∧ (∀ c ∈ new, c.sets_null = false)
      ∧ (r.ret = true → r.outs.aborted = false →
          (new.filter OpCall.is_string_setter).length
            = ([r.outs.password_out, r.outs.user_out, r.outs.domain_out].filter
                Option.isSome).length) := by
  obtain ⟨so, cb, ud, failed, err, opres⟩ := res
  cases failed
  · cases opres with
    | none =>
      simp [op_ask_password_reply, g_mount_source_ask_password_finish,
        g_simple_async_result_propagate_error, OutPtrs.all] at hrun
    | some data =>
      obtain ⟨ab, pw, un, dom, sv⟩ := data
      cases ab <;> cases pw <;> cases un <;> cases dom <;>
        simp [op_ask_password_reply, g_mount_source_ask_password_finish,
          g_simple_async_result_propagate_error, OutPtrs.all,
          g_mount_operation_reply, g_mount_operation_set_password,
          g_mount_operation_set_username, g_mount_operation_set_domain,
          g_mount_operation_set_password_save] at hrun ⊢ <;>
        obtain ⟨-, rfl⟩ := hrun <;>
        refine ⟨_, rfl, ?_⟩ <;>
        simp [OpCall.is_setter, OpCall.sets_null, OpCall.is_string_setter]
  · simp [op_ask_password_reply, g_mount_source_ask_password_finish,
      g_simple_async_result_propagate_error, g_mount_operation_reply] at hrun ⊢
    obtain ⟨-, rfl⟩ := hrun
    refine ⟨_, rfl, ?_⟩
    simp [OpCall.is_setter, OpCall.sets_null, OpCall.is_string_setter]

/-- C9: on every complete result object `op_ask_password_reply` returns, and
the calls it made on the operation are such that: if
`g_mount_source_ask_password_finish` returned `FALSE` or reported
`aborted = TRUE`, no setter was called and the operation's password, user
name, domain and save preference are what they were; no string setter was
called with `NULL`; and in the `HANDLED` case the number of string setter calls
is the number of credential strings that are present. -/
theorem op_ask_password_reply_setters_guarded (res : GSimpleAsyncResult)
    (op : GMountOperation) (stack outs : OutVars) (hres : res.completed = true) :
    ∃ r res' op' new,
      g_mount_source_ask_password_finish res OutPtrs.all outs = some r
      ∧ op_ask_password_reply res op stack = some (res', op')
      ∧ op'.calls = op.calls ++ new
      ∧ ((r.ret = false ∨ r.outs.aborted = true) →
          (∀ c ∈ new, c.is_setter = false)
          ∧ op'.password = op.password ∧ op'.user = op.user
          ∧ op'.domain = op.domain ∧ op'.password_save = op.password_save)
      ∧ (∀ c ∈ new, c.sets_null = false)
      ∧ (r.ret = true → r.outs.aborted = false →
          (new.filter OpCall.is_string_setter).length
            = ([r.outs.password_out, r.outs.user_out, r.outs.domain_out].filter
                Option.isSome).length) := by
  obtain ⟨res', op', hrun⟩ := op_ask_password_reply_returns res op stack hres
  obtain ⟨r, new, hfin, hcalls, hrest⟩ :=
    op_ask_password_reply_calls res op stack outs res' op' hrun
  exact ⟨r, res', op', new, hfin, hrun, hcalls, hrest⟩

/-- An instance of C9: with no reply at all the adapter answers `ABORTED`,
calls no setter and leaves the four fields of the operation alone. -/
theorem op_ask_password_reply_setters_guarded_witness :
    (ask_password_reply none
        (g_simple_async_result_new scenario_source .op_ask_password_reply 0)
        MainLoop.empty).1.completed = true
    ∧ ∃ r res' op' new,
      g_mount_source_ask_password_finish
          (ask_password_reply none
            (g_simple_async_result_new scenario_source .op_ask_password_reply 0)
            MainLoop.empty).1 OutPtrs.all OutVars.clear = some r
      ∧ op_ask_password_reply
          (ask_password_reply none
            (g_simple_async_result_new scenario_source .op_ask_password_reply 0)
            MainLoop.empty).1 g_mount_operation_new OutVars.clear = some (res', op')
      ∧ op'.calls = g_mount_operation_new.calls ++ new
      ∧ ((r.ret = false ∨ r.outs.aborted = true) →
          (∀ c ∈ new, c.is_setter = false)
          ∧ op'.password = g_mount_operation_new.password
          ∧ op'.user = g_mount_operation_new.user
          ∧ op'.domain = g_mount_operation_new.domain
          ∧ op'.password_save = g_mount_operation_new.password_save)
      ∧ (∀ c ∈ new, c.sets_null = false)
      ∧ (r.ret = true → r.outs.aborted = false →
          (new.filter OpCall.is_string_setter).length
            = ([r.outs.password_out, r.outs.user_out, r.outs.domain_out].filter
                Option.isSome).length) :=
  ⟨rfl,
   op_ask_password_reply_setters_guarded _ g_mount_operation_new OutVars.clear
     OutVars.clear rfl⟩

/-! ## Reading a result object twice -/

/-- C10, the claim at the scenario reply of the spec: the first call of
`g_mount_source_ask_password_finish` returns `TRUE`, and a second call on the
same result object does not fail: it returns `TRUE` again, with `aborted`
`FALSE`, save code 1, and `NULL` for the three strings. -/
theorem ask_password_finish_twice_returns_twice :
    ∃ r1 r2,
      g_mount_source_ask_password_finish
          (ask_password_reply (some scenario_reply)
            (g_simple_async_result_new scenario_source (.caller 0) 0)
            MainLoop.empty).1 OutPtrs.all OutVars.clear = some r1
      ∧ r1.ret = true
      ∧ g_mount_source_ask_password_finish r1.result OutPtrs.all OutVars.clear = some r2
      ∧ r2.ret = true
      ∧ r2.outs = { aborted := false, password_out := none, user_out := none,
                    domain_out := none, password_save_out := 1 } :=
  ⟨_, _, rfl, rfl, rfl, rfl, rfl⟩

/-- C10 as the code has it: when `g_mount_source_ask_password_finish`, called
with all five out-pointers, has returned `TRUE`, a second call on the same
result object, with any out-pointers, returns `TRUE` again and leaves the
result object as it is; it reports the same `aborted` flag and save code as the
first call and `NULL` for each of the three strings, the first call having
taken them. -/
theorem ask_password_finish_second_call (res : GSimpleAsyncResult) (outs : OutVars)
    (r1 : FinishReturn)
    (hfirst : g_mount_source_ask_password_finish res OutPtrs.all outs = some r1)
    (hret : r1.ret = true) (ptrs2 : OutPtrs) (outs2 : OutVars) :
    ∃ r2,
      g_mount_source_ask_password_finish r1.result ptrs2 outs2 = some r2
      ∧ r2.ret = true
      ∧ r2.result = r1.result
      ∧ r2.outs.aborted = (if ptrs2.aborted then r1.outs.aborted else outs2.aborted)
      ∧ r2.outs.password_out = (if ptrs2.password_out then none else outs2.password_out)
      ∧ r2.outs.user_out = (if ptrs2.user_out then none else outs2.user_out)
      ∧ r2.outs.domain_out = (if ptrs2.domain_out then none else outs2.domain_out)
      ∧ r2.outs.password_save_out
          = (if ptrs2.password_save_out then r1.outs.password_save_out
             else outs2.password_save_out) := by
  obtain ⟨so, cb, ud, failed, err, opres⟩ := res
  cases failed
  · cases opres with
    | none =>
      simp [g_mount_source_ask_password_finish, g_simple_async_result_propagate_error,
        OutPtrs.all] at hfirst
    | some data =>
      simp [g_mount_source_ask_password_finish, g_simple_async_result_propagate_error,
        OutPtrs.all] at hfirst
      subst hfirst
      obtain ⟨a, p, u, d, s⟩ := ptrs2
      cases a <;> cases p <;> cases u <;> cases d <;> cases s <;>
        simp [g_mount_source_ask_password_finish, g_simple_async_result_propagate_error]
  · simp [g_mount_source_ask_password_finish, g_simple_async_result_propagate_error]
      at hfirst
    subst hfirst
    simp at hret

/-- The scenario of the spec as an instance of the second-call statement. -/
theorem ask_password_finish_second_call_witness :
    ∃ r1,
      g_mount_source_ask_password_finish
          (ask_password_reply (some scenario_reply)
            (g_simple_async_result_new scenario_source (.caller 0) 0)
            MainLoop.empty).1 OutPtrs.all OutVars.clear = some r1
      ∧ r1.ret = true
      ∧ ∃ r2,
        g_mount_source_ask_password_finish r1.result OutPtrs.all OutVars.clear = some r2
        ∧ r2.ret = true
        ∧ r2.result = r1.result :=
  ⟨_, rfl, rfl,
   (ask_password_finish_second_call
      (ask_password_reply (some scenario_reply)
        (g_simple_async_result_new scenario_source (.caller 0) 0) MainLoop.empty).1
      OutVars.clear _ rfl rfl OutPtrs.all OutVars.clear).imp
     fun _ h => ⟨h.1, h.2.1, h.2.2.1⟩⟩

/-! ## Replies that do not decode -/

end Gvfs
